import Mathlib

/-!
# Verification of `bot.py` (Telegram video sorter bot)

Shallow embedding of the core of `bot.py`: the metadata extractors
(`VideoFile.extract_episode_number`, `VideoFile.extract_video_quality`),
the classify/sort/dispatch pipeline of `endsequence_command`, and the
episode-range computation of `generate_summary`.

Strings are modelled as `List Char`; Python's `re` patterns are embedded
as executable matching functions (see below).  `\d` is modelled as an
ASCII digit, which is what every string in scope uses.
-/

namespace SequenceBot

/-- Maximal ASCII-digit prefix of a character list, with the rest. -/
def digitSpan : List Char → List Char × List Char
  | [] => ([], [])
  | c :: cs =>
    if c.isDigit then
      let p := digitSpan cs
      (c :: p.1, p.2)
    else ([], c :: cs)

/-- Value of a digit string, as Python's `int` on the captured group. -/
def digitsToNat (ds : List Char) : Nat :=
  ds.foldl (fun n c => 10 * n + (c.toNat - 48)) 0

/--
Match the tag `[S\d+-E\d+]` at the head of the list.  The regex is
deterministic here: each `\d+` is forced to the maximal digit run by the
literal that follows it.  Returns the captured episode digits (as a `Nat`)
and the suffix after the closing `]`.
-/
def matchTagAt (s : List Char) : Option (Nat × List Char) :=
  match s with
  | '[' :: 'S' :: r0 =>
    let s1 := digitSpan r0
    if s1.1 = [] then none
    else
      match s1.2 with
      | '-' :: 'E' :: r1 =>
        let s2 := digitSpan r1
        if s2.1 = [] then none
        else
          match s2.2 with
          | ']' :: r2 => some (digitsToNat s2.1, r2)
          | _ => none
      | _ => none
  | _ => none

/-- Match `[(\d+)(P)?]` at the head of the list, returning the captured
number.  Also deterministic: the digit run is maximal, and the optional
`P` is forced by the closing bracket. -/
def bracketNumAt (s : List Char) : Option Nat :=
  match s with
  | '[' :: r0 =>
    let p := digitSpan r0
    if p.1 = [] then none
    else
      match p.2 with
      | ']' :: _ => some (digitsToNat p.1)
      | 'P' :: ']' :: _ => some (digitsToNat p.1)
      | _ => none
  | _ => none

/--
The greedy `.*\[(\d+)(P)?\]` tail of the quality pattern: `.` does not
cross a newline, and greediness means the LAST bracketed number before
the first newline is the one captured.
-/
def lastBracketNum : List Char → Option Nat
  | [] => none
  | c :: rest =>
    if c = '\n' then none
    else
      match lastBracketNum rest with
      | some q => some q
      | none => bracketNumAt (c :: rest)

/--
`re.search(r'\[S\d+-E(\d+)\]', text)`: leftmost occurrence of the tag,
returning the captured episode number (bot.py line 37-41).
-/
def episodeMatch : List Char → Option Nat
  | [] => none
  | c :: rest =>
    match matchTagAt (c :: rest) with
    | some p => some p.1
    | none => episodeMatch rest

/--
`re.search(r'\[S\d+-E\d+\].*\[(\d+)(P)?\]', text)`: leftmost start
position where the tag matches and a bracketed number follows on the
same line; the greedy `.*` selects the last such bracketed number
(bot.py line 46-50).
-/
def qualityMatch : List Char → Option Nat
  | [] => none
  | c :: rest =>
    match matchTagAt (c :: rest) with
    | some p =>
      match lastBracketNum p.2 with
      | some q => some q
      | none => qualityMatch rest
    | none => qualityMatch rest

/-- `VideoFile.extract_episode_number` (bot.py lines 35-42): try the
filename, then the caption. -/
def extract_episode_number (filename caption : List Char) : Option Nat :=
  match episodeMatch filename with
  | some e => some e
  | none => episodeMatch caption

/-- The `common_qualities` list of bot.py line 51. -/
def common_qualities : List Nat := [144, 240, 360, 480, 720, 1080, 1440, 2160]

/-- `VideoFile.extract_video_quality` (bot.py lines 44-53): the first
field (filename, then caption) with ANY pattern match decides; its
captured value is returned only if it is in `common_qualities`,
otherwise the result is `None` without consulting the other field. -/
def extract_video_quality (filename caption : List Char) : Option Nat :=
  match qualityMatch filename with
  | some q => if q ∈ common_qualities then some q else none
  | none =>
    match qualityMatch caption with
    | some q => if q ∈ common_qualities then some q else none
    | none => none

/-- Media kind of an upload (`file_type` in bot.py). -/
inductive FileType where
  | video
  | document
deriving DecidableEq

/-- One uploaded item (class `VideoFile`, bot.py lines 26-33).  The
`caption` field is the already-defaulted string (`caption or ''`). -/
structure VideoFile where
  file_id : String
  filename : List Char
  caption : List Char
  file_type : FileType
deriving DecidableEq

/-- `self.episode_number`, computed at construction from filename+caption. -/
def episodeOf (f : VideoFile) : Option Nat :=
  extract_episode_number f.filename f.caption

/-- `self.video_quality`, computed at construction from filename+caption. -/
def qualityOf (f : VideoFile) : Option Nat :=
  extract_video_quality f.filename f.caption

/-! ## Classification and sorting (`endsequence_command`, bot.py lines 155-174) -/

/-- A record is valid when both derived attributes are non-null
(bot.py line 156). -/
def isValid (f : VideoFile) : Bool :=
  (episodeOf f).isSome && (qualityOf f).isSome

/-- `valid_files` (bot.py line 156), in insertion order. -/
def valid_files (files : List VideoFile) : List VideoFile :=
  files.filter isValid

/-- `invalid_files` (bot.py line 157). -/
def invalid_files (files : List VideoFile) : List VideoFile :=
  files.filter (fun f => !(isValid f))

/-- Membership in the keys of `quality_groups = {480: [], 720: [], 1080: []}`. -/
def inNamed (q : Nat) : Bool :=
  q == 480 || q == 720 || q == 1080

/-- The loop of bot.py lines 167-171 appends each valid file, in order, to
the bucket of its quality; per key this is a filter over `valid_files`. -/
def quality_group (q : Nat) (files : List VideoFile) : List VideoFile :=
  (valid_files files).filter (fun f => qualityOf f == some q)

/-- A valid file whose quality is not one of the three named keys
(the `else` branch of bot.py line 170). -/
def isOther (f : VideoFile) : Bool :=
  match qualityOf f with
  | some q => !(inNamed q)
  | none => false

/-- `other_files` (bot.py lines 166-171). -/
def other_files (files : List VideoFile) : List VideoFile :=
  (valid_files files).filter isOther

/-- The sort key `lambda x: x.episode_number` (bot.py line 173).  The
`getD 0` default is never consulted: every sorted file is valid. -/
def epKey (f : VideoFile) : Nat :=
  (episodeOf f).getD 0

/-- The second component `x.video_quality or 0` of the key at
bot.py line 174 (`None` is mapped to `0`). -/
def qKey (f : VideoFile) : Nat :=
  (qualityOf f).getD 0

/-- Comparison for the three named buckets: by episode number only. -/
def epLe (a b : VideoFile) : Prop :=
  epKey a ≤ epKey b

/-- Comparison for `other_files`: lexicographic on
`(episode number, quality number)` (bot.py line 174). -/
def lexLe (a b : VideoFile) : Prop :=
  epKey a < epKey b ∨ (epKey a = epKey b ∧ qKey a ≤ qKey b)

instance : DecidableRel epLe := fun u v => Nat.decLe (epKey u) (epKey v)

instance : IsTotal VideoFile epLe :=
  ⟨fun a b => Nat.le_total (epKey a) (epKey b)⟩

instance : IsTrans VideoFile epLe :=
  ⟨fun _ _ _ hab hbc => Nat.le_trans hab hbc⟩

instance : DecidableRel lexLe := fun u v =>
  inferInstanceAs (Decidable (epKey u < epKey v ∨ (epKey u = epKey v ∧ qKey u ≤ qKey v)))

instance : IsTotal VideoFile lexLe := by
  constructor
  intro a b
  rcases Nat.lt_trichotomy (epKey a) (epKey b) with h | h | h
  · exact Or.inl (Or.inl h)
  · rcases Nat.le_total (qKey a) (qKey b) with hq | hq
    · exact Or.inl (Or.inr ⟨h, hq⟩)
    · exact Or.inr (Or.inr ⟨h.symm, hq⟩)
  · exact Or.inr (Or.inl h)

instance : IsTrans VideoFile lexLe := by
  constructor
  rintro a b c (hab | ⟨hab, hab'⟩) (hbc | ⟨hbc, hbc'⟩)
  · exact Or.inl (Nat.lt_trans hab hbc)
  · exact Or.inl (hbc ▸ hab)
  · exact Or.inl (hab ▸ hbc)
  · exact Or.inr ⟨hab.trans hbc, hab'.trans hbc'⟩

/-- The named bucket for quality `q` after the in-place stable sort of
bot.py lines 172-173.  Python's `list.sort` is a stable sort by key;
`insertionSort` with the same key ordering computes the same list. -/
def sorted_group (q : Nat) (files : List VideoFile) : List VideoFile :=
  List.insertionSort epLe (quality_group q files)

/-- `other_files` after the sort of bot.py line 174. -/
def sorted_other (files : List VideoFile) : List VideoFile :=
  List.insertionSort lexLe (other_files files)

/-! ## Summary episode ranges (`generate_summary`, bot.py lines 263-282) -/

/-- Python's `f"{n:02d}"` for a natural number. -/
def pad2 (n : Nat) : String :=
  if n < 10 then "0" ++ toString n else toString n

/-- `f"E{episodes[0]:02d}-E{episodes[-1]:02d}" if episodes else "None"`
(bot.py lines 272 and 276), applied to the ascending-sorted episode list. -/
def rangeStr (episodes : List Nat) : String :=
  match episodes with
  | [] => "None"
  | e :: rest => "E" ++ pad2 e ++ "-E" ++ pad2 (rest.getLastD e)

/-- The comprehension filter `if f.episode_number` of bot.py line 275 is
Python truthiness: it drops `None` AND episode number `0`. -/
def truthyEpisode (f : VideoFile) : Option Nat :=
  match episodeOf f with
  | some e => if e = 0 then none else some e
  | none => none

/-- `sorted([f.episode_number for f in other_files if f.episode_number])`
(bot.py line 275). -/
def otherEpisodeList (other : List VideoFile) : List Nat :=
  List.insertionSort (fun a b => a ≤ b) (other.filterMap truthyEpisode)

/-- The `other` bucket's `episode_range` string (bot.py lines 275-276). -/
def otherEpisodeRange (other : List VideoFile) : String :=
  rangeStr (otherEpisodeList other)

/-! ## Delivery dispatch (`endsequence_command`, bot.py lines 176-259)

The transport sends may fail; the environment is modelled by two oracles
`pOk`/`dOk` saying whether the primary send and the dump-channel send of
a given record succeed.  `update.message.reply_text` notifications are
modelled as non-failing events, matching the spec's
`Transport.notifyUser` interface. -/

/-- User-visible / transport events emitted while dispatching. -/
inductive Event where
  /-- Bucket announcement (bot.py lines 180-184 and 219-223). -/
  | announce (label : String) (count : Nat)
  /-- Attempt to send a record to the user's chat; `ok` is the outcome. -/
  | primary (f : VideoFile) (ok : Bool)
  /-- Attempt to send a record to the dump channel; `ok` is the outcome. -/
  | dump (f : VideoFile) (ok : Bool)
  /-- The `asyncio.sleep(1)` pacing delay after a dump-channel send. -/
  | sleep
  /-- The `"Error sending file: ..."` reply of the `except` branch. -/
  | errorReply (text : List Char)
  /-- The final summary reply (bot.py lines 258-259), with
  `processed`/`total` counts. -/
  | summary (processed total : Nat)
deriving DecidableEq

/-- `video_file.caption or video_file.filename` (bot.py lines 214-216):
the caption if non-empty, else the filename. -/
def errText (f : VideoFile) : List Char :=
  if f.caption = [] then f.filename else f.caption

/-- One iteration of the per-record try/except (bot.py lines 185-217 and
224-256): primary send; on success, if a dump channel is set, dump send
then the pacing delay; any raise lands in `except`, which notifies the
user and falls through to the next record. -/
def dispatchRecord (dumpDest : Option String) (pOk dOk : VideoFile → Bool)
    (f : VideoFile) : List Event :=
  if pOk f then
    Event.primary f true ::
      (match dumpDest with
       | none => []
       | some _ =>
         if dOk f then [Event.dump f true, Event.sleep]
         else [Event.dump f false, Event.errorReply (errText f)])
  else
    [Event.primary f false, Event.errorReply (errText f)]

/-- One bucket: announcement (only when non-empty), then every record in
bucket order (bot.py lines 178-217 and 218-256). -/
def dispatchBucket (label : String) (dumpDest : Option String)
    (pOk dOk : VideoFile → Bool) (bucket : List VideoFile) : List Event :=
  if bucket = [] then []
  else
    Event.announce label bucket.length ::
      (bucket.map (dispatchRecord dumpDest pOk dOk)).flatten

/-- The whole dispatch of a closed session: buckets in the fixed order
480, 720, 1080, other, then the summary reply. -/
def dispatchAll (dumpDest : Option String) (pOk dOk : VideoFile → Bool)
    (g480 g720 g1080 other : List VideoFile)
    (processed total : Nat) : List Event :=
  dispatchBucket "480P QUALITY EPISODES" dumpDest pOk dOk g480 ++
  dispatchBucket "720P QUALITY EPISODES" dumpDest pOk dOk g720 ++
  dispatchBucket "1080P QUALITY EPISODES" dumpDest pOk dOk g1080 ++
  dispatchBucket "OTHER QUALITY EPISODES" dumpDest pOk dOk other ++
  [Event.summary processed total]

/-! ## Session store and `endsequence_command` (bot.py lines 136-261) -/

/-- `self.user_sessions`: a partial map from user id to the session's
record list. -/
def Sessions : Type := Nat → Option (List VideoFile)

/-- The user-visible outcome of `/endsequence`. -/
inductive CloseReply where
  /-- `"No files received yet! Use /sequence first..."` (bot.py line 140),
  sent both when no session exists and when the session list is empty. -/
  | noFilesReceived
  /-- `"No valid files could be processed..."` (bot.py line 159). -/
  | noValidFiles
  /-- Successful dispatch with its event trace. -/
  | dispatched (events : List Event)

/-- `endsequence_command` (bot.py lines 136-261) as a function from the
session map (and the send oracles) to the reply and the new session map.
Note the guard at line 139 returns WITHOUT `del` when the session is
missing or empty; the two `del self.user_sessions[user_id]` sites are
lines 162 (no valid files) and 261 (after dispatch). -/
def endsequence (sessions : Sessions) (dumpDest : Option String)
    (pOk dOk : VideoFile → Bool) (u : Nat) : CloseReply × Sessions :=
  match sessions u with
  | none => (CloseReply.noFilesReceived, sessions)
  | some files =>
    if files = [] then (CloseReply.noFilesReceived, sessions)
    else if valid_files files = [] then
      (CloseReply.noValidFiles, fun v => if v = u then none else sessions v)
    else
      (CloseReply.dispatched
        (dispatchAll dumpDest pOk dOk
          (sorted_group 480 files) (sorted_group 720 files)
          (sorted_group 1080 files) (sorted_other files)
          (valid_files files).length files.length),
       fun v => if v = u then none else sessions v)

/-! ## Helper lemmas -/

/-- If the quality pattern matches anywhere in `t`, the episode pattern
matches in `t` as well: the quality pattern starts with the very tag the
episode pattern searches for. -/
theorem episodeMatch_isSome_of_qualityMatch {t : List Char} {q : Nat}
    (h : qualityMatch t = some q) : (episodeMatch t).isSome = true := by
  induction t with
  | nil => simp [qualityMatch] at h
  | cons c rest ih =>
    rw [qualityMatch] at h
    rw [episodeMatch]
    cases htag : matchTagAt (c :: rest) with
    | some p => simp
    | none =>
      rw [htag] at h
      exact ih h

/-! ## Claims about the metadata extractor -/

/-- Concrete inputs for witnesses: a filename whose bracketed number 999
is outside the allowed set, and a caption that alone would yield 1080. -/
def fn999 : List Char := "[S01-E07] Movie [999]".toList

def cap1080 : List Char := "[S01-E07] Movie [1080]".toList

/-- C3: if the filename has a quality-pattern match whose captured number
fails the allowed-set check, quality extraction returns `none` for EVERY
caption — the caption is never consulted as a fallback. -/
theorem c3_first_match_wins (fn cap : List Char) (q : Nat)
    (hm : qualityMatch fn = some q) (hq : q ∉ common_qualities) :
    extract_video_quality fn cap = none := by
  unfold extract_video_quality
  rw [hm]
  simp [hq]

theorem c3_first_match_wins_witness :
    qualityMatch fn999 = some 999 ∧
    extract_video_quality [] cap1080 = some 1080 ∧
    extract_video_quality fn999 cap1080 = none :=
  ⟨rfl, rfl, c3_first_match_wins fn999 cap1080 999 rfl (by decide)⟩

/-- C7: whichever field (filename first, else caption) produces the
quality-pattern match, a captured bracketed number outside the allowed
set makes the extracted quality `none`. -/
theorem c7_out_of_set_quality_none (fn cap : List Char) (q : Nat)
    (hq : q ∉ common_qualities) :
    (qualityMatch fn = some q → extract_video_quality fn cap = none) ∧
    (qualityMatch fn = none → qualityMatch cap = some q →
      extract_video_quality fn cap = none) := by
  constructor
  · intro hm
    unfold extract_video_quality
    rw [hm]
    simp [hq]
  · intro hf hm
    unfold extract_video_quality
    rw [hf, hm]
    simp [hq]

theorem c7_out_of_set_quality_none_witness :
    extract_video_quality fn999 [] = none ∧
    extract_video_quality [] ("[S01-E02] Y [999P]".toList) = none :=
  ⟨(c7_out_of_set_quality_none fn999 [] 999 (by decide)).1 rfl,
   (c7_out_of_set_quality_none [] ("[S01-E02] Y [999P]".toList) 999 (by decide)).2 rfl rfl⟩

/-- C9: a record with a non-null derived quality always has a non-null
derived episode number — the quality pattern embeds the episode tag, so a
field that yields a quality also yields an episode. -/
theorem c9_quality_implies_episode (fn cap : List Char)
    (h : (extract_video_quality fn cap).isSome = true) :
    (extract_episode_number fn cap).isSome = true := by
  unfold extract_video_quality at h
  unfold extract_episode_number
  cases hf : qualityMatch fn with
  | some q =>
    have he := episodeMatch_isSome_of_qualityMatch hf
    cases hm : episodeMatch fn with
    | some e => simp
    | none => rw [hm] at he; simp at he
  | none =>
    rw [hf] at h
    cases hc : qualityMatch cap with
    | some q =>
      have he := episodeMatch_isSome_of_qualityMatch hc
      cases hm : episodeMatch fn with
      | some e => simp
      | none => simpa using he
    | none => rw [hc] at h; simp at h

theorem c9_quality_implies_episode_witness :
    (extract_video_quality ("[S01-E07] X [720]".toList) []).isSome = true ∧
    (extract_episode_number ("[S01-E07] X [720]".toList) []).isSome = true :=
  ⟨rfl, c9_quality_implies_episode ("[S01-E07] X [720]".toList) [] rfl⟩

/-! ## Claims about the close (`/endsequence`) lifecycle -/

/-- A state with an open but empty session for user 7. -/
def emptySessionState : Sessions := fun v => if v = 7 then some [] else none

/-- A state where user 7 never opened a session. -/
def noSessionState : Sessions := fun _ => none

/-- C1 counterexample: closing an open-but-empty session produces the
rejection, but the session is NOT discarded — user 7's (empty) session
still exists afterwards, contradicting "no session exists for that user
afterwards". -/
theorem c1_empty_close_counterexample :
    (endsequence emptySessionState none (fun _ => true) (fun _ => true) 7).1 =
      CloseReply.noFilesReceived ∧
    (endsequence emptySessionState none (fun _ => true) (fun _ => true) 7).2 7 =
      some [] ∧
    (endsequence emptySessionState none (fun _ => true) (fun _ => true) 7).2 7 ≠
      none :=
  ⟨rfl, rfl, by decide⟩

/-- C1 amended: closing an open-but-empty session produces the
`noFilesReceived` rejection and leaves the session map UNCHANGED — the
empty session remains open (the guard at bot.py line 139 returns before
any `del`). -/
theorem c1_empty_close_keeps_session (sessions : Sessions)
    (dumpDest : Option String) (pOk dOk : VideoFile → Bool) (u : Nat)
    (h : sessions u = some []) :
    endsequence sessions dumpDest pOk dOk u =
      (CloseReply.noFilesReceived, sessions) := by
  unfold endsequence
  rw [h]
  rfl

theorem c1_empty_close_keeps_session_witness :
    endsequence emptySessionState none (fun _ => true) (fun _ => true) 7 =
      (CloseReply.noFilesReceived, emptySessionState) :=
  c1_empty_close_keeps_session emptySessionState none
    (fun _ => true) (fun _ => true) 7 rfl

/-- C6 counterexample: the "never started" state and the "open but empty"
state yield the SAME user-visible reply on close — the single guard of
bot.py line 139 merges the two conditions into one message, so they are
not distinguishable. -/
theorem c6_indistinguishable_counterexample :
    (endsequence noSessionState none (fun _ => true) (fun _ => true) 7).1 =
      CloseReply.noFilesReceived ∧
    (endsequence emptySessionState none (fun _ => true) (fun _ => true) 7).1 =
      CloseReply.noFilesReceived :=
  ⟨rfl, rfl⟩

/-- C6 amended: whether no session exists for the user or the session
exists but holds zero records, `/endsequence` replies with the one and
the same `noFilesReceived` message — the two failure conditions are not
user-distinguishable. -/
theorem c6_single_close_failure_reply (sessions : Sessions)
    (dumpDest : Option String) (pOk dOk : VideoFile → Bool) (u : Nat)
    (h : sessions u = none ∨ sessions u = some []) :
    (endsequence sessions dumpDest pOk dOk u).1 =
      CloseReply.noFilesReceived := by
  unfold endsequence
  rcases h with h | h
  · rw [h]
  · rw [h]
    rfl

theorem c6_single_close_failure_reply_witness :
    (endsequence noSessionState none (fun _ => true) (fun _ => true) 7).1 =
      CloseReply.noFilesReceived :=
  c6_single_close_failure_reply noSessionState none
    (fun _ => true) (fun _ => true) 7 (Or.inl rfl)

/-! ## C4: bucket ordering -/

/-- C4: after classification and sorting, each named bucket is
non-decreasing in episode number, and the `other` bucket is
non-decreasing in the lexicographic `(episode, quality)` key. -/
theorem c4_bucket_sorting (files : List VideoFile) :
    List.Pairwise epLe (sorted_group 480 files) ∧
    List.Pairwise epLe (sorted_group 720 files) ∧
    List.Pairwise epLe (sorted_group 1080 files) ∧
    List.Pairwise lexLe (sorted_other files) :=
  ⟨List.sorted_insertionSort epLe _, List.sorted_insertionSort epLe _,
   List.sorted_insertionSort epLe _, List.sorted_insertionSort lexLe _⟩

/-! ## C5: partition completeness -/

/-- Membership in a sorted named bucket, characterised. -/
theorem mem_sorted_group {files : List VideoFile} {f : VideoFile} {q : Nat} :
    f ∈ sorted_group q files ↔
      f ∈ files ∧ isValid f = true ∧ qualityOf f = some q := by
  unfold sorted_group quality_group valid_files
  rw [(List.perm_insertionSort epLe _).mem_iff]
  simp [List.mem_filter, and_assoc]
  exact fun _ => and_comm

/-- Membership in the sorted `other` bucket, characterised. -/
theorem mem_sorted_other {files : List VideoFile} {f : VideoFile} :
    f ∈ sorted_other files ↔
      f ∈ files ∧ isValid f = true ∧ isOther f = true := by
  unfold sorted_other other_files valid_files
  rw [(List.perm_insertionSort lexLe _).mem_iff]
  simp [List.mem_filter, and_assoc]
  exact fun _ => and_comm

/-- How many of the four buckets contain `f`. -/
def bucketCount (files : List VideoFile) (f : VideoFile) : Nat :=
  (if f ∈ sorted_group 480 files then 1 else 0) +
  (if f ∈ sorted_group 720 files then 1 else 0) +
  (if f ∈ sorted_group 1080 files then 1 else 0) +
  (if f ∈ sorted_other files then 1 else 0)

/-- C5: a record with both attributes non-null lands in exactly one of
the four buckets; a record with either attribute null lands in none. -/
theorem c5_partition (files : List VideoFile) (f : VideoFile) (hf : f ∈ files) :
    ((episodeOf f).isSome = true ∧ (qualityOf f).isSome = true →
      bucketCount files f = 1) ∧
    (episodeOf f = none ∨ qualityOf f = none → bucketCount files f = 0) := by
  constructor
  · rintro ⟨he, hq⟩
    have hvalid : isValid f = true := by
      unfold isValid
      rw [he, hq]
      rfl
    obtain ⟨q, hqeq⟩ := Option.isSome_iff_exists.mp hq
    by_cases h480 : q = 480
    · subst h480
      have hother : isOther f = false := by unfold isOther; rw [hqeq]; rfl
      simp [bucketCount, mem_sorted_group, mem_sorted_other, hf, hvalid, hqeq,
        hother]
    · by_cases h720 : q = 720
      · subst h720
        have hother : isOther f = false := by unfold isOther; rw [hqeq]; rfl
        simp [bucketCount, mem_sorted_group, mem_sorted_other, hf, hvalid,
          hqeq, hother]
      · by_cases h1080 : q = 1080
        · subst h1080
          have hother : isOther f = false := by unfold isOther; rw [hqeq]; rfl
          simp [bucketCount, mem_sorted_group, mem_sorted_other, hf, hvalid,
            hqeq, hother]
        · have hother : isOther f = true := by
            unfold isOther
            rw [hqeq]
            simp [inNamed, h480, h720, h1080]
          simp [bucketCount, mem_sorted_group, mem_sorted_other, hf, hvalid,
            hqeq, hother, h480, h720, h1080]
  · intro h
    have hvalid : isValid f = false := by
      unfold isValid
      rcases h with h | h <;> rw [h] <;> simp
    simp [bucketCount, mem_sorted_group, mem_sorted_other, hvalid]

/-- A valid 480p record for the C5 witness. -/
def file480 : VideoFile :=
  ⟨"id480", "[S01-E03] Show [480P].mkv".toList, [], FileType.document⟩

theorem c5_partition_witness :
    file480 ∈ [file480] ∧ bucketCount [file480] file480 = 1 :=
  ⟨by decide,
   (c5_partition [file480] file480 (by decide)).1 ⟨by decide, by decide⟩⟩

/-! ## C2: the `other` bucket's summary episode range -/

/-- The formatted range of a non-empty episode list is never the string
`"None"`: it starts with the character `E`. -/
theorem rangeStr_cons_ne_none (x : Nat) (rest : List Nat) :
    rangeStr (x :: rest) ≠ "None" := by
  unfold rangeStr
  intro h
  have hd := congrArg String.data h
  simp only [String.data_append, List.append_assoc] at hd
  rw [List.singleton_append] at hd
  exact absurd (List.head_eq_of_cons_eq hd) (by decide)

/-- A valid record whose episode number is `0` and whose quality 2160
sends it to the `other` bucket. -/
def epZeroFile : VideoFile :=
  ⟨"id0", "[S01-E00] Show [2160].mkv".toList, [], FileType.document⟩

/-- C2 counterexample: a session consisting of one `[S01-E00] ... [2160]`
record yields a NON-empty `other` bucket whose summary episode range is
the string `"None"`: the comprehension filter `if f.episode_number`
(bot.py line 275) drops episode number `0` by Python truthiness, not
only `None`. -/
theorem c2_other_range_counterexample :
    sorted_other [epZeroFile] ≠ [] ∧
    otherEpisodeRange (sorted_other [epZeroFile]) = "None" :=
  ⟨by decide, rfl⟩

/-- C2 amended: the `other` summary range is populated (not `"None"`)
whenever the bucket contains an entry whose episode number is non-null
AND nonzero; an episode number of `0` is also dropped by the truthiness
filter, so a non-empty bucket of only episode-0 entries reports
`"None"`. -/
theorem c2_other_range_populated (other : List VideoFile)
    (h : ∃ f ∈ other, ∃ e, episodeOf f = some e ∧ e ≠ 0) :
    otherEpisodeRange other ≠ "None" := by
  obtain ⟨f, hf, e, he, hz⟩ := h
  have hmem : e ∈ other.filterMap truthyEpisode :=
    List.mem_filterMap.mpr ⟨f, hf, by simp [truthyEpisode, he, hz]⟩
  have hmem2 : e ∈ otherEpisodeList other := by
    unfold otherEpisodeList
    rw [(List.perm_insertionSort _ _).mem_iff]
    exact hmem
  unfold otherEpisodeRange
  cases hlist : otherEpisodeList other with
  | nil => rw [hlist] at hmem2; simp at hmem2
  | cons x rest => exact rangeStr_cons_ne_none x rest

/-- A valid 2160p record with a nonzero episode, for the C2 witness. -/
def ep5File : VideoFile :=
  ⟨"id5", "[S01-E05] Show [2160].mkv".toList, [], FileType.document⟩

theorem c2_other_range_populated_witness :
    otherEpisodeRange [ep5File] ≠ "None" :=
  c2_other_range_populated [ep5File]
    ⟨ep5File, by decide, 5, rfl, by decide⟩

/-! ## C8 and C10: dispatch failure isolation -/

/-- The primary send of every record is attempted, with its outcome
recorded, whatever the oracles say. -/
theorem primary_mem_dispatchRecord (dumpDest : Option String)
    (pOk dOk : VideoFile → Bool) (f : VideoFile) :
    Event.primary f (pOk f) ∈ dispatchRecord dumpDest pOk dOk f := by
  unfold dispatchRecord
  cases hp : pOk f <;> simp [hp]

/-- A failed primary send produces the error notification carrying
`caption or filename`. -/
theorem errorReply_mem_dispatchRecord (dumpDest : Option String)
    {pOk : VideoFile → Bool} (dOk : VideoFile → Bool) {f : VideoFile}
    (h : pOk f = false) :
    Event.errorReply (errText f) ∈ dispatchRecord dumpDest pOk dOk f := by
  unfold dispatchRecord
  simp [h]

/-- Any event of a record's own dispatch appears in the bucket trace. -/
theorem mem_dispatchBucket_of_mem (label : String) (dumpDest : Option String)
    (pOk dOk : VideoFile → Bool) {bucket : List VideoFile} {f : VideoFile}
    (hf : f ∈ bucket) {e : Event}
    (he : e ∈ dispatchRecord dumpDest pOk dOk f) :
    e ∈ dispatchBucket label dumpDest pOk dOk bucket := by
  unfold dispatchBucket
  have hne : bucket ≠ [] := by
    rintro rfl
    simp at hf
  rw [if_neg hne]
  refine List.mem_cons_of_mem _ ?_
  rw [List.mem_flatten]
  exact ⟨_, List.mem_map_of_mem _ hf, he⟩

/-- A non-empty bucket is announced with its label and count. -/
theorem announce_mem_dispatchBucket (label : String) (dumpDest : Option String)
    (pOk dOk : VideoFile → Bool) {bucket : List VideoFile}
    (h : bucket ≠ []) :
    Event.announce label bucket.length ∈
      dispatchBucket label dumpDest pOk dOk bucket := by
  unfold dispatchBucket
  rw [if_neg h]
  exact List.mem_cons_self _ _

/-- C8: a primary send failure for any record in any bucket is captured
and user-notified with that record's `caption or filename`, and dispatch
still attempts the primary send of EVERY record, still announces every
non-empty bucket, and still emits the final summary. -/
theorem c8_send_failure_isolated (dumpDest : Option String)
    (pOk dOk : VideoFile → Bool) (g480 g720 g1080 other : List VideoFile)
    (processed total : Nat) (f : VideoFile)
    (hf : f ∈ g480 ∨ f ∈ g720 ∨ f ∈ g1080 ∨ f ∈ other)
    (hfail : pOk f = false) :
    Event.errorReply (errText f) ∈
      dispatchAll dumpDest pOk dOk g480 g720 g1080 other processed total ∧
    (∀ g, (g ∈ g480 ∨ g ∈ g720 ∨ g ∈ g1080 ∨ g ∈ other) →
      Event.primary g (pOk g) ∈
        dispatchAll dumpDest pOk dOk g480 g720 g1080 other processed total) ∧
    (g480 ≠ [] → Event.announce "480P QUALITY EPISODES" g480.length ∈
      dispatchAll dumpDest pOk dOk g480 g720 g1080 other processed total) ∧
    (g720 ≠ [] → Event.announce "720P QUALITY EPISODES" g720.length ∈
      dispatchAll dumpDest pOk dOk g480 g720 g1080 other processed total) ∧
    (g1080 ≠ [] → Event.announce "1080P QUALITY EPISODES" g1080.length ∈
      dispatchAll dumpDest pOk dOk g480 g720 g1080 other processed total) ∧
    (other ≠ [] → Event.announce "OTHER QUALITY EPISODES" other.length ∈
      dispatchAll dumpDest pOk dOk g480 g720 g1080 other processed total) ∧
    Event.summary processed total ∈
      dispatchAll dumpDest pOk dOk g480 g720 g1080 other processed total := by
  have sub480 : dispatchBucket "480P QUALITY EPISODES" dumpDest pOk dOk g480 ⊆
      dispatchAll dumpDest pOk dOk g480 g720 g1080 other processed total :=
    fun _ he => by
      unfold dispatchAll
      exact List.mem_append_left _ (List.mem_append_left _
        (List.mem_append_left _ (List.mem_append_left _ he)))
  have sub720 : dispatchBucket "720P QUALITY EPISODES" dumpDest pOk dOk g720 ⊆
      dispatchAll dumpDest pOk dOk g480 g720 g1080 other processed total :=
    fun _ he => by
      unfold dispatchAll
      exact List.mem_append_left _ (List.mem_append_left _
        (List.mem_append_left _ (List.mem_append_right _ he)))
  have sub1080 :
      dispatchBucket "1080P QUALITY EPISODES" dumpDest pOk dOk g1080 ⊆
        dispatchAll dumpDest pOk dOk g480 g720 g1080 other processed total :=
    fun _ he => by
      unfold dispatchAll
      exact List.mem_append_left _ (List.mem_append_left _
        (List.mem_append_right _ he))
  have subOther :
      dispatchBucket "OTHER QUALITY EPISODES" dumpDest pOk dOk other ⊆
        dispatchAll dumpDest pOk dOk g480 g720 g1080 other processed total :=
    fun _ he => by
      unfold dispatchAll
      exact List.mem_append_left _ (List.mem_append_right _ he)
  have recordIn : ∀ g, (g ∈ g480 ∨ g ∈ g720 ∨ g ∈ g1080 ∨ g ∈ other) →
      ∀ {e : Event}, e ∈ dispatchRecord dumpDest pOk dOk g →
        e ∈ dispatchAll dumpDest pOk dOk g480 g720 g1080 other processed
          total := by
    rintro g (hg | hg | hg | hg) e he
    · exact sub480 (mem_dispatchBucket_of_mem _ dumpDest pOk dOk hg he)
    · exact sub720 (mem_dispatchBucket_of_mem _ dumpDest pOk dOk hg he)
    · exact sub1080 (mem_dispatchBucket_of_mem _ dumpDest pOk dOk hg he)
    · exact subOther (mem_dispatchBucket_of_mem _ dumpDest pOk dOk hg he)
  refine ⟨?_, ?_, ?_, ?_, ?_, ?_, ?_⟩
  · exact recordIn f hf (errorReply_mem_dispatchRecord dumpDest dOk hfail)
  · exact fun g hg => recordIn g hg (primary_mem_dispatchRecord dumpDest pOk dOk g)
  · exact fun h => sub480 (announce_mem_dispatchBucket _ dumpDest pOk dOk h)
  · exact fun h => sub720 (announce_mem_dispatchBucket _ dumpDest pOk dOk h)
  · exact fun h => sub1080 (announce_mem_dispatchBucket _ dumpDest pOk dOk h)
  · exact fun h => subOther (announce_mem_dispatchBucket _ dumpDest pOk dOk h)
  · unfold dispatchAll
    exact List.mem_append_right _ (List.mem_singleton.mpr rfl)

/-- A plain record for the dispatch witnesses; its content never feeds
the extractors. -/
def wFile : VideoFile := ⟨"w", [], [], FileType.video⟩

theorem c8_send_failure_isolated_witness :
    Event.errorReply (errText wFile) ∈
      dispatchAll none (fun _ => false) (fun _ => true) [wFile] [] [] [] 1 1 ∧
    Event.summary 1 1 ∈
      dispatchAll none (fun _ => false) (fun _ => true) [wFile] [] [] [] 1 1 := by
  have h := c8_send_failure_isolated none (fun _ => false) (fun _ => true)
    [wFile] [] [] [] 1 1 wFile (Or.inl (by simp)) rfl
  exact ⟨h.1, h.2.2.2.2.2.2⟩

/-- C10: within one record's dispatch, a failed primary send means no
dump-channel send attempt and no pacing delay; conversely a dump-channel
attempt or a pacing delay can only follow a successful primary send. -/
theorem c10_dump_only_after_primary (dumpDest : Option String)
    (pOk dOk : VideoFile → Bool) (f : VideoFile) :
    (pOk f = false →
      (∀ b, Event.dump f b ∉ dispatchRecord dumpDest pOk dOk f) ∧
      Event.sleep ∉ dispatchRecord dumpDest pOk dOk f) ∧
    (∀ b, Event.dump f b ∈ dispatchRecord dumpDest pOk dOk f →
      pOk f = true) ∧
    (Event.sleep ∈ dispatchRecord dumpDest pOk dOk f → pOk f = true) := by
  unfold dispatchRecord
  cases hp : pOk f <;> cases dumpDest <;> simp [hp]

theorem c10_dump_only_after_primary_witness :
    Event.sleep ∉
      dispatchRecord (some "chan") (fun _ => false) (fun _ => true) wFile :=
  ((c10_dump_only_after_primary (some "chan") (fun _ => false)
    (fun _ => true) wFile).1 rfl).2

end SequenceBot

